import Mathlib

/-!
Verification of the derivation core of the `igloo` rollup node.

The Rust sources are embedded shallowly:
* `src/example/src/l1/attribute.rs` — `EpochInfo`, `PayloadAttributeImpl`,
  `TryFrom<L1HeadImpl> for EpochInfo`;
* `src/example/src/l1/block.rs` — `L1BlockInfoImpl` and its
  `TryInto<PayloadAttributeImpl>` instant conversion;
* `src/interface/src/l2/pool.rs` — the `TransactionPool` trait;
* `src/interface/src/runner.rs` — the `Runner` trait;
* `src/svm/executor/src/builder/simple.rs` — `SimpleBuilder::read_program`.

Machine scalars (`L1Hash`, `L1Height`, `L1Timestamp`, bytes) are modelled as
`Nat`; no arithmetic the claims depend on overflows.  Rust `Result<T, E>` is
`Except E T`; `anyhow::Error` is modelled as a structure carrying a message.
Types whose defining files are outside the provided sources (`DepositTx`,
`Batch`, `L1HeadImpl`'s full definition, `L2Transaction`) are modelled as
opaque records with exactly the structure the provided sources use, and the
deposit-decoding step `DepositTx -> L2Transaction` (a `TryInto` not in the
provided sources) is a parameter of the conversion, so every theorem holds
for every possible decoder.
-/

namespace Igloo

/-- Model of `anyhow::Error`: an opaque error value with a message. -/
structure AnyhowError where
  msg : String
deriving DecidableEq, Repr

/-- An L2 transaction; its contents are opaque to the derivation layer, so it
is modelled as a record holding an abstract payload. -/
structure L2Transaction where
  payload : Nat
deriving DecidableEq, Repr

/-- A deposit transaction found in an L1 block.  Its fields are opaque to
`block.rs` (it is only mapped through `tx.try_into()`), so it is modelled as
a record holding abstract data. -/
structure DepositTx where
  data : Nat
deriving DecidableEq, Repr

/-- A batch reference.  `block.rs` never reads it (`TODO: derive batch from
self.batch if needed later`), so it is modelled as an opaque record. -/
structure Batch where
  refData : Nat
deriving DecidableEq, Repr

/-- `L1HeadImpl`: the L1 head.  `attribute.rs` reads exactly the fields
`hash`, `height`, `timestamp` from it. -/
structure L1HeadImpl where
  hash : Nat
  height : Nat
  timestamp : Nat
deriving DecidableEq, Repr

/-- `EpochInfo` from `attribute.rs`: hash, height and timestamp of the anchor
L1 block. -/
structure EpochInfo where
  hash : Nat
  height : Nat
  timestamp : Nat
deriving DecidableEq, Repr

/-- Accessor `Epoch::block_hash` for `EpochInfo` (`attribute.rs`). -/
def EpochInfo.block_hash (self : EpochInfo) : Nat :=
  self.hash

/-- Accessor `Epoch::block_height` for `EpochInfo` (`attribute.rs`). -/
def EpochInfo.block_height (self : EpochInfo) : Nat :=
  self.height

/-- Accessor `Epoch::timestamp` for `EpochInfo` (`attribute.rs`). -/
def EpochInfo.timestamp_acc (self : EpochInfo) : Nat :=
  self.timestamp

/-- `TryFrom<L1HeadImpl> for EpochInfo` (`attribute.rs`): copies the three
fields and always returns `Ok`. -/
def EpochInfo.tryFrom (value : L1HeadImpl) : Except AnyhowError EpochInfo :=
  Except.ok { hash := value.hash, height := value.height, timestamp := value.timestamp }

/-- `PayloadAttributeImpl` from `attribute.rs`: a shared immutable ordered
sequence of L2 transactions (`Arc<Vec<L2Transaction>>`, modelled as a list)
plus one epoch. -/
structure PayloadAttributeImpl where
  transactions : List L2Transaction
  epoch : EpochInfo
deriving DecidableEq, Repr

/-- Accessor `PayloadAttribute::transactions` (`attribute.rs`): clones the
`Arc`, returning a handle to the same sequence; `&self` access is modelled by
returning the (unchanged) receiver alongside the result. -/
def PayloadAttributeImpl.transactions_acc (self : PayloadAttributeImpl) :
    List L2Transaction × PayloadAttributeImpl :=
  (self.transactions, self)

/-- Accessor `PayloadAttribute::epoch_info` (`attribute.rs`): borrows the
epoch; `&self` access is modelled by returning the (unchanged) receiver
alongside the result. -/
def PayloadAttributeImpl.epoch_info (self : PayloadAttributeImpl) :
    EpochInfo × PayloadAttributeImpl :=
  (self.epoch, self)

/-- `L1BlockInfoImpl` from `block.rs`: a list of deposit transactions, one
batch reference and the L1 head. -/
structure L1BlockInfoImpl where
  deposit_txs : List DepositTx
  batch : Batch
  l1_head : L1HeadImpl
deriving DecidableEq, Repr

/-- Accessor `L1BlockInfo::deposit_transactions` (`block.rs`). -/
def L1BlockInfoImpl.deposit_transactions (self : L1BlockInfoImpl) : List DepositTx :=
  self.deposit_txs

/-- Accessor `L1BlockInfo::batch_info` (`block.rs`). -/
def L1BlockInfoImpl.batch_info (self : L1BlockInfoImpl) : Batch :=
  self.batch

/-- Accessor `L1BlockInfo::l1_head` (`block.rs`). -/
def L1BlockInfoImpl.l1_head_acc (self : L1BlockInfoImpl) : L1HeadImpl :=
  self.l1_head

/-- `TryInto<PayloadAttributeImpl> for L1BlockInfoImpl` (`block.rs`): maps
`try_into` over the deposit transactions, short-circuiting at the first
failure (`collect::<anyhow::Result<Vec<_>>>`), converts the L1 head into the
epoch, and never reads `self.batch`.  The per-deposit decoder `decode`
(the `TryInto<L2Transaction> for DepositTx` instance, defined outside the
provided sources) is passed as a parameter. -/
def L1BlockInfoImpl.try_into_payload
    (decode : DepositTx → Except AnyhowError L2Transaction)
    (self : L1BlockInfoImpl) : Except AnyhowError PayloadAttributeImpl := do
  let deposit_tx ← self.deposit_txs.mapM decode
  let epoch ← EpochInfo.tryFrom self.l1_head
  return { transactions := deposit_tx, epoch := epoch }

end Igloo

namespace Igloo

/-! Helper lemmas about `List.mapM` over `Except`. -/

theorem except_bind_ok {E α β : Type} (a : α) (f : α → Except E β) :
    (Except.ok a >>= f : Except E β) = f a :=
  rfl

theorem except_bind_error {E α β : Type} (e : E) (f : α → Except E β) :
    ((Except.error e : Except E α) >>= f) = Except.error e :=
  rfl

theorem except_pure_eq_ok {E α : Type} (a : α) :
    (pure a : Except E α) = Except.ok a :=
  rfl

/-- `mapM` over `Except` succeeds with `ys` exactly when each element of `l`
maps to `ok` of the corresponding element of `ys`, positionally in order. -/
theorem mapM_except_ok_iff {α β E : Type}
    (f : α → Except E β) (l : List α) (ys : List β) :
    l.mapM f = Except.ok ys ↔
      List.Forall₂ (fun x y => f x = Except.ok y) l ys := by
  induction l generalizing ys with
  | nil =>
    simp only [List.mapM_nil, except_pure_eq_ok]
    constructor
    · intro h
      cases h
      exact List.Forall₂.nil
    · intro h
      cases h
      rfl
  | cons a as ih =>
    simp only [List.mapM_cons]
    constructor
    · intro h
      cases hfa : f a with
      | error e =>
        rw [hfa, except_bind_error] at h
        cases h
      | ok b =>
        rw [hfa, except_bind_ok] at h
        cases hrest : as.mapM f with
        | error e =>
          rw [hrest, except_bind_error] at h
          cases h
        | ok bs =>
          rw [hrest, except_bind_ok, except_pure_eq_ok] at h
          cases h
          exact List.Forall₂.cons hfa ((ih bs).mp hrest)
    · intro h
      cases h with
      | cons hfa hrest =>
        rw [hfa, except_bind_ok, (ih _).mpr hrest, except_bind_ok, except_pure_eq_ok]

/-- `mapM` over `Except` fails exactly when some element fails. -/
theorem mapM_except_error_iff {α β E : Type}
    (f : α → Except E β) (l : List α) :
    (∃ e, l.mapM f = Except.error e) ↔ ∃ x ∈ l, ∃ e, f x = Except.error e := by
  induction l with
  | nil =>
    simp only [List.mapM_nil, except_pure_eq_ok, List.not_mem_nil, false_and, exists_false,
      iff_false, not_exists]
    intro e h
    cases h
  | cons a as ih =>
    simp only [List.mapM_cons]
    constructor
    · rintro ⟨e, h⟩
      cases hfa : f a with
      | error e' => exact ⟨a, List.mem_cons_self a as, e', hfa⟩
      | ok b =>
        rw [hfa, except_bind_ok] at h
        cases hrest : as.mapM f with
        | error e' =>
          obtain ⟨x, hx, hex⟩ := ih.mp ⟨e', hrest⟩
          exact ⟨x, List.mem_cons_of_mem a hx, hex⟩
        | ok bs =>
          rw [hrest, except_bind_ok, except_pure_eq_ok] at h
          cases h
    · rintro ⟨x, hx, e, hex⟩
      rcases List.mem_cons.mp hx with hxa | hxas
      · subst hxa
        rw [hex, except_bind_error]
        exact ⟨e, rfl⟩
      · cases hfa : f a with
        | error e' =>
          rw [except_bind_error]
          exact ⟨e', rfl⟩
        | ok b =>
          obtain ⟨e', he'⟩ := ih.mpr ⟨x, hxas, e, hex⟩
          rw [except_bind_ok, he', except_bind_error]
          exact ⟨e', rfl⟩

end Igloo

namespace Igloo

/-! ## Transaction pool

`src/interface/src/l2/pool.rs` declares only the traits `BatchSettings`
(`max_size`) and `TransactionPool` (`insert`, `next_batch`); no concrete
pool implementation is in the provided sources. -/

/-- `BatchSettings` (`pool.rs`): carries the bound `max_size`. -/
structure BatchSettingsImpl where
  max_size : Nat
deriving DecidableEq, Repr

/-- Modelled from the spec: a concrete `TransactionPool` state (the trait in
`pool.rs` has no implementation in the provided sources).  Per the spec, a
pool owns a mutable queue of pending L2 transactions. -/
structure SimplePool (Tx : Type) where
  pending : List Tx
deriving DecidableEq, Repr

/-- Modelled from the spec: `TransactionPool::insert` — O(1) amortized,
always succeeds, silently accepts duplicates. -/
def SimplePool.insert {Tx : Type} (self : SimplePool Tx) (tx : Tx) : SimplePool Tx :=
  { pending := self.pending ++ [tx] }

/-- Modelled from the spec: `TransactionPool::next_batch` — removes and
returns up to `settings.max_size` pending transactions; the pool imposes no
ordering policy of its own, so the model yields them in queue order. -/
def SimplePool.next_batch {Tx : Type} (self : SimplePool Tx)
    (settings : BatchSettingsImpl) : List Tx × SimplePool Tx :=
  (self.pending.take settings.max_size,
   { pending := self.pending.drop settings.max_size })

/-! ## Epoch equality

The provided sources derive no `PartialEq` for `EpochInfo`; the equality
contract lives in the spec only. -/

/-- Modelled from the spec: epoch equality — two epochs are equal iff hash
and height agree (the provided sources define no equality on `EpochInfo`). -/
def EpochInfo.eqEpoch (e1 e2 : EpochInfo) : Bool :=
  e1.block_hash == e2.block_hash && e1.block_height == e2.block_height

/-! ## Runner trait surface

`src/interface/src/runner.rs` declares the trait `Runner` with methods
`register_instant(&mut self, ...)`, `register_da(&mut self, ...)`,
`get_engine(&self)` and `advance(&mut self)`.  Every method takes the
receiver by reference — none consumes `self` — and the trait introduces no
builder-to-runner typestate, so which methods the caller may invoke never
changes.  We model the caller-visible API as a transition system whose state
records which operations are available, with each method call as a step. -/

/-- The operations of the `Runner` trait (`runner.rs`). -/
inductive RunnerOp where
  | register_instant
  | register_da
  | get_engine
  | advance
deriving DecidableEq, Repr

/-- Caller-visible availability of each `Runner` trait operation. -/
structure RunnerApi where
  register_instant_available : Bool
  register_da_available : Bool
  get_engine_available : Bool
  advance_available : Bool
deriving DecidableEq, Repr

/-- The API surface a caller holding a `&mut` to a `Runner` sees
(`runner.rs`): all four trait methods are invocable. -/
def RunnerApi.initial : RunnerApi :=
  { register_instant_available := true
    register_da_available := true
    get_engine_available := true
    advance_available := true }

/-- Whether the trait permits invoking `op` in API state `s`. -/
def RunnerApi.enabled (s : RunnerApi) (op : RunnerOp) : Bool :=
  match op with
  | RunnerOp.register_instant => s.register_instant_available
  | RunnerOp.register_da => s.register_da_available
  | RunnerOp.get_engine => s.get_engine_available
  | RunnerOp.advance => s.advance_available

/-- Effect of a call on the availability state: every `Runner` method takes
`&self` or `&mut self` (none takes `self` by value, `runner.rs` lines 10-16),
so after the call returns, the caller still holds the same receiver and the
same four methods — availability is unchanged. -/
def RunnerApi.step (s : RunnerApi) (op : RunnerOp) : RunnerApi :=
  match op with
  | RunnerOp.register_instant => s
  | RunnerOp.register_da => s
  | RunnerOp.get_engine => s
  | RunnerOp.advance => s

/-- A sequence of calls is accepted when each call is enabled in the state
reached by its predecessors. -/
def RunnerApi.accepts (s : RunnerApi) : List RunnerOp → Bool
  | [] => true
  | op :: ops => s.enabled op && (s.step op).accepts ops

/-! ## `SimpleBuilder::read_program`

`src/svm/executor/src/builder/simple.rs` lines 215-229.  Only the two
program-source fields matter to `read_program`; file contents are bytes
(modelled as `List Nat`) and the file system read `read_file` does external
I/O, so it is passed as a parameter. -/

/-- Error type of the executor crate as `read_program` uses it: a builder
error with a message, or an I/O-style error from reading a file. -/
inductive SvmError where
  | builderError (msg : String)
  | ioError (msg : String)
deriving DecidableEq, Repr

/-- The program-source fields of `SimpleBuilder` (`simple.rs`):
`program_path : Option<String>` and `program_buffer : Option<Vec<u8>>`. -/
structure SimpleBuilderProg where
  program_path : Option String
  program_buffer : Option (List Nat)
deriving DecidableEq, Repr

/-- `SimpleBuilder::read_program` (`simple.rs` lines 215-229): errors when
both program buffer and path are set; otherwise returns the buffer if set,
else reads the file at the path if set, else errors.  `read_file` is the
file-system read, passed as a parameter. -/
def SimpleBuilderProg.read_program
    (read_file : String → Except SvmError (List Nat))
    (self : SimpleBuilderProg) : Except SvmError (List Nat) :=
  if self.program_buffer.isSome && self.program_path.isSome then
    Except.error (SvmError.builderError "Both program buffer and path are set")
  else
    match self.program_buffer with
    | some buffer => Except.ok buffer
    | none =>
      match self.program_path with
      | some path => read_file path
      | none => Except.error (SvmError.builderError "Program not found")

/-! ## Sample concrete instances (used to exercise the definitions). -/

/-- A sample deposit decoder: decodes deposits with even data, rejects
odd ones as malformed. -/
def sampleDecode (tx : DepositTx) : Except AnyhowError L2Transaction :=
  if tx.data % 2 = 0 then Except.ok { payload := tx.data }
  else Except.error { msg := "malformed calldata" }

/-- A sample file-system read used to exercise `read_program`. -/
def sampleReadFile (path : String) : Except SvmError (List Nat) :=
  if path = "prog.so" then Except.ok [7, 7, 7]
  else Except.error (SvmError.ioError "no such file")

end Igloo

namespace Igloo

/-! ## Claim theorems: instant conversion (C1 - C4, C9) -/

/-- C1: for every `L1BlockInfoImpl` whose deposit transactions all decode
successfully — i.e. `mapM decode` returns `ok txs`, so `txs` is the list of
decoded deposits in L1-block order — the instant conversion returns `Ok` of a
`PayloadAttributeImpl` whose transaction list is exactly `txs` and whose
epoch carries the hash, height and timestamp of the block's L1 head; the
decoded list corresponds element-wise, in order, to the deposit list, and an
empty deposit list yields `Ok` with an empty transaction list that still
carries the epoch. -/
theorem claim_C1_instant_conversion_ok
    (decode : DepositTx → Except AnyhowError L2Transaction)
    (blk : L1BlockInfoImpl) (txs : List L2Transaction)
    (h : blk.deposit_txs.mapM decode = Except.ok txs) :
    blk.try_into_payload decode =
      Except.ok
        { transactions := txs
          epoch :=
            { hash := blk.l1_head.hash
              height := blk.l1_head.height
              timestamp := blk.l1_head.timestamp } } ∧
    List.Forall₂ (fun d t => decode d = Except.ok t) blk.deposit_txs txs ∧
    (blk.deposit_txs = [] → txs = []) := by
  refine ⟨?_, ?_, ?_⟩
  · unfold L1BlockInfoImpl.try_into_payload
    rw [h, except_bind_ok]
    rfl
  · exact (mapM_except_ok_iff decode blk.deposit_txs txs).mp h
  · intro hnil
    rw [hnil] at h
    have := (mapM_except_ok_iff decode [] txs).mp h
    cases this
    rfl

/-- C1 witness: a concrete block with two decodable deposits converts to the
expected attribute, and a concrete block with no deposits still yields the
epoch. -/
theorem claim_C1_instant_conversion_ok_witness :
    (L1BlockInfoImpl.mk [⟨2⟩, ⟨4⟩] ⟨0⟩ ⟨1, 2, 3⟩).try_into_payload sampleDecode =
      Except.ok
        { transactions := [⟨2⟩, ⟨4⟩], epoch := { hash := 1, height := 2, timestamp := 3 } } ∧
    (L1BlockInfoImpl.mk [] ⟨0⟩ ⟨1, 2, 3⟩).try_into_payload sampleDecode =
      Except.ok
        { transactions := [], epoch := { hash := 1, height := 2, timestamp := 3 } } :=
  ⟨(claim_C1_instant_conversion_ok sampleDecode
      (L1BlockInfoImpl.mk [⟨2⟩, ⟨4⟩] ⟨0⟩ ⟨1, 2, 3⟩) [⟨2⟩, ⟨4⟩] rfl).1,
   (claim_C1_instant_conversion_ok sampleDecode
      (L1BlockInfoImpl.mk [] ⟨0⟩ ⟨1, 2, 3⟩) [] rfl).1⟩

/-- C2: for every `L1BlockInfoImpl` in which at least one deposit transaction
fails to decode, the instant conversion returns an error — no attribute
containing only the successfully decoded deposits is ever returned. -/
theorem claim_C2_instant_conversion_fails_closed
    (decode : DepositTx → Except AnyhowError L2Transaction)
    (blk : L1BlockInfoImpl)
    (h : ∃ tx ∈ blk.deposit_txs, ∃ e, decode tx = Except.error e) :
    ∃ e, blk.try_into_payload decode = Except.error e := by
  obtain ⟨e, he⟩ := (mapM_except_error_iff decode blk.deposit_txs).mpr h
  refine ⟨e, ?_⟩
  unfold L1BlockInfoImpl.try_into_payload
  rw [he, except_bind_error]

/-- C2 witness: a concrete block whose second deposit fails to decode makes
the whole conversion fail. -/
theorem claim_C2_instant_conversion_fails_closed_witness :
    ∃ e, (L1BlockInfoImpl.mk [⟨2⟩, ⟨3⟩] ⟨0⟩ ⟨1, 2, 3⟩).try_into_payload sampleDecode =
      Except.error e :=
  claim_C2_instant_conversion_fails_closed sampleDecode
    (L1BlockInfoImpl.mk [⟨2⟩, ⟨3⟩] ⟨0⟩ ⟨1, 2, 3⟩)
    ⟨⟨3⟩, by simp, ⟨{ msg := "malformed calldata" }, rfl⟩⟩

/-- C3: the batch field has no influence on the instant conversion — two
blocks agreeing on deposits and L1 head but differing in batch convert
identically — and no batch-derived transaction ever appears: any `Ok`
attribute's transaction list is exactly the decoded deposit list. -/
theorem claim_C3_batch_not_read
    (decode : DepositTx → Except AnyhowError L2Transaction)
    (dts : List DepositTx) (head : L1HeadImpl) (b1 b2 : Batch) :
    (L1BlockInfoImpl.mk dts b1 head).try_into_payload decode =
      (L1BlockInfoImpl.mk dts b2 head).try_into_payload decode ∧
    (∀ blk : L1BlockInfoImpl, ∀ attr : PayloadAttributeImpl,
      blk.try_into_payload decode = Except.ok attr →
        blk.deposit_txs.mapM decode = Except.ok attr.transactions) := by
  constructor
  · rfl
  · intro blk attr h
    unfold L1BlockInfoImpl.try_into_payload at h
    cases hm : blk.deposit_txs.mapM decode with
    | error e =>
      rw [hm, except_bind_error] at h
      cases h
    | ok txs =>
      rw [hm, except_bind_ok] at h
      unfold EpochInfo.tryFrom at h
      rw [except_bind_ok, except_pure_eq_ok] at h
      cases h
      rfl

/-- C3 witness: concrete blocks differing only in batch convert identically,
and a concrete `Ok` attribute's transactions are the decoded deposits. -/
theorem claim_C3_batch_not_read_witness :
    (L1BlockInfoImpl.mk [⟨2⟩] ⟨10⟩ ⟨1, 2, 3⟩).try_into_payload sampleDecode =
      (L1BlockInfoImpl.mk [⟨2⟩] ⟨20⟩ ⟨1, 2, 3⟩).try_into_payload sampleDecode ∧
    (L1BlockInfoImpl.mk [⟨2⟩] ⟨10⟩ ⟨1, 2, 3⟩).deposit_txs.mapM sampleDecode =
      Except.ok [⟨2⟩] :=
  ⟨(claim_C3_batch_not_read sampleDecode [⟨2⟩] ⟨1, 2, 3⟩ ⟨10⟩ ⟨20⟩).1,
   (claim_C3_batch_not_read sampleDecode [⟨2⟩] ⟨1, 2, 3⟩ ⟨10⟩ ⟨20⟩).2
     (L1BlockInfoImpl.mk [⟨2⟩] ⟨10⟩ ⟨1, 2, 3⟩)
     { transactions := [⟨2⟩], epoch := { hash := 1, height := 2, timestamp := 3 } } rfl⟩

/-- C4: instant derivation is pure and deterministic — the conversion is a
function of the block value alone (no state parameter appears in its type),
so any two blocks equal component-wise convert to identical results, for any
fixed decoder. -/
theorem claim_C4_deterministic
    (decode : DepositTx → Except AnyhowError L2Transaction)
    (b1 b2 : L1BlockInfoImpl)
    (h1 : b1.deposit_txs = b2.deposit_txs)
    (h2 : b1.batch = b2.batch)
    (h3 : b1.l1_head = b2.l1_head) :
    b1.try_into_payload decode = b2.try_into_payload decode := by
  cases b1
  cases b2
  cases h1
  cases h2
  cases h3
  rfl

/-- C4 witness: two identical concrete blocks convert identically. -/
theorem claim_C4_deterministic_witness :
    (L1BlockInfoImpl.mk [⟨2⟩] ⟨5⟩ ⟨1, 2, 3⟩).try_into_payload sampleDecode =
      (L1BlockInfoImpl.mk [⟨2⟩] ⟨5⟩ ⟨1, 2, 3⟩).try_into_payload sampleDecode :=
  claim_C4_deterministic sampleDecode
    (L1BlockInfoImpl.mk [⟨2⟩] ⟨5⟩ ⟨1, 2, 3⟩)
    (L1BlockInfoImpl.mk [⟨2⟩] ⟨5⟩ ⟨1, 2, 3⟩) rfl rfl rfl

/-- C9: converting an L1 head into an epoch never fails — `tryFrom` returns
`ok` of the copied fields for every head — and therefore the only possible
failure source of the instant conversion is deposit decoding: whenever the
conversion errors, some deposit transaction fails to decode. -/
theorem claim_C9_epoch_conversion_never_fails
    (v : L1HeadImpl)
    (decode : DepositTx → Except AnyhowError L2Transaction)
    (blk : L1BlockInfoImpl) :
    EpochInfo.tryFrom v =
      Except.ok { hash := v.hash, height := v.height, timestamp := v.timestamp } ∧
    (∀ e, blk.try_into_payload decode = Except.error e →
      ∃ tx ∈ blk.deposit_txs, ∃ e', decode tx = Except.error e') := by
  constructor
  · rfl
  · intro e h
    unfold L1BlockInfoImpl.try_into_payload at h
    cases hm : blk.deposit_txs.mapM decode with
    | error e0 =>
      exact (mapM_except_error_iff decode blk.deposit_txs).mp ⟨e0, hm⟩
    | ok txs =>
      rw [hm, except_bind_ok] at h
      unfold EpochInfo.tryFrom at h
      rw [except_bind_ok, except_pure_eq_ok] at h
      cases h

/-- C9 witness: a concrete head converts to `ok`, and on a concrete failing
conversion the failing deposit is exhibited. -/
theorem claim_C9_epoch_conversion_never_fails_witness :
    EpochInfo.tryFrom ⟨1, 2, 3⟩ =
      Except.ok { hash := 1, height := 2, timestamp := 3 } ∧
    ∃ tx ∈ (L1BlockInfoImpl.mk [⟨3⟩] ⟨0⟩ ⟨1, 2, 3⟩).deposit_txs,
      ∃ e', sampleDecode tx = Except.error e' :=
  ⟨(claim_C9_epoch_conversion_never_fails ⟨1, 2, 3⟩ sampleDecode
      (L1BlockInfoImpl.mk [⟨3⟩] ⟨0⟩ ⟨1, 2, 3⟩)).1,
   (claim_C9_epoch_conversion_never_fails ⟨1, 2, 3⟩ sampleDecode
      (L1BlockInfoImpl.mk [⟨3⟩] ⟨0⟩ ⟨1, 2, 3⟩)).2 { msg := "malformed calldata" } rfl⟩

end Igloo

namespace Igloo

/-! ## Claim theorems: pool, epoch equality, runner, attribute, builder -/

/-- C5: `next_batch` returns at most `max_size` transactions; an empty pool
yields an empty batch (not an error); and the returned transactions are
removed — on a duplicate-free pool, a following `next_batch` on the
otherwise-unmodified pool never returns any of them again. -/
theorem claim_C5_pool_bound {Tx : Type}
    (p : SimplePool Tx) (s : BatchSettingsImpl) :
    (p.next_batch s).1.length ≤ s.max_size ∧
    (p.pending = [] → (p.next_batch s).1 = []) ∧
    (p.pending.Nodup → ∀ s' : BatchSettingsImpl, ∀ tx ∈ (p.next_batch s).1,
      tx ∉ ((p.next_batch s).2.next_batch s').1) := by
  refine ⟨?_, ?_, ?_⟩
  · simp [SimplePool.next_batch]
  · intro h
    simp [SimplePool.next_batch, h]
  · intro hnd s' tx htx hmem
    simp only [SimplePool.next_batch] at htx hmem
    have hdisj := List.disjoint_take_drop hnd (Nat.le_refl s.max_size)
    exact hdisj htx (List.mem_of_mem_take hmem)

/-- C5 witness: on the concrete pool `[1, 2, 3]` with `max_size = 2`, the
batch has at most 2 elements and the returned transaction 2 is not returned
by the following `next_batch`. -/
theorem claim_C5_pool_bound_witness :
    ((SimplePool.mk [1, 2, 3] : SimplePool Nat).next_batch ⟨2⟩).1.length ≤ 2 ∧
    (2 : Nat) ∉
      (((SimplePool.mk [1, 2, 3] : SimplePool Nat).next_batch ⟨2⟩).2.next_batch ⟨2⟩).1 ∧
    ((SimplePool.mk [] : SimplePool Nat).next_batch ⟨2⟩).1 = [] :=
  ⟨(claim_C5_pool_bound (SimplePool.mk [1, 2, 3]) ⟨2⟩).1,
   (claim_C5_pool_bound (SimplePool.mk [1, 2, 3]) ⟨2⟩).2.2 (by decide) ⟨2⟩ 2 (by decide),
   (claim_C5_pool_bound (SimplePool.mk [] : SimplePool Nat) ⟨2⟩).2.1 rfl⟩

/-- C6: epoch equality is determined by hash and height alone — `eqEpoch`
holds iff `block_hash` and `block_height` agree, and changing the timestamps
of either side does not change the result. -/
theorem claim_C6_epoch_equality (e1 e2 : EpochInfo) :
    (EpochInfo.eqEpoch e1 e2 = true ↔
      e1.block_hash = e2.block_hash ∧ e1.block_height = e2.block_height) ∧
    (∀ t1 t2 : Nat,
      EpochInfo.eqEpoch ⟨e1.hash, e1.height, t1⟩ ⟨e2.hash, e2.height, t2⟩ =
        EpochInfo.eqEpoch e1 e2) := by
  constructor
  · simp [EpochInfo.eqEpoch]
  · intro t1 t2
    simp [EpochInfo.eqEpoch, EpochInfo.block_hash, EpochInfo.block_height]

/-- C7 counterexample: the `Runner` trait of `runner.rs` takes every method
by reference and has no typestate, so the call sequence
`advance; register_instant` (and `advance; register_da`) is accepted — after
one `advance`, both registration operations are still available to the
caller, contradicting the claim that they no longer are. -/
theorem claim_C7_registration_after_advance_accepted :
    RunnerApi.initial.accepts [RunnerOp.advance, RunnerOp.register_instant] = true ∧
    RunnerApi.initial.accepts [RunnerOp.advance, RunnerOp.register_da] = true ∧
    (RunnerApi.initial.step RunnerOp.advance).register_instant_available = true ∧
    (RunnerApi.initial.step RunnerOp.advance).register_da_available = true :=
  ⟨rfl, rfl, rfl, rfl⟩

/-- C7 amended: the `Runner` trait leaves `register_instant` and
`register_da` available after any sequence of calls, `advance` included —
the trait enforces no builder-to-runner transition, so setup-time-only
registration is a caller obligation, not an API guarantee. -/
theorem claim_C7_registration_always_available (ops : List RunnerOp) :
    RunnerApi.initial.accepts (ops ++ [RunnerOp.register_instant]) = true ∧
    RunnerApi.initial.accepts (ops ++ [RunnerOp.register_da]) = true := by
  have key : ∀ l : List RunnerOp, RunnerApi.initial.accepts l = true := by
    intro l
    induction l with
    | nil => rfl
    | cons op l ih =>
      have h1 : RunnerApi.initial.enabled op = true := by cases op <;> rfl
      have h2 : RunnerApi.initial.step op = RunnerApi.initial := by cases op <;> rfl
      show (RunnerApi.initial.enabled op && (RunnerApi.initial.step op).accepts l) = true
      rw [h1, h2, ih, Bool.and_self]
  exact ⟨key _, key _⟩

/-- C8: a `PayloadAttributeImpl` never mutates after construction — each
accessor returns exactly the component supplied at construction, leaves the
attribute unchanged, and repeated calls return equal results. -/
theorem claim_C8_attribute_immutable
    (txs : List L2Transaction) (e : EpochInfo) :
    (PayloadAttributeImpl.mk txs e).transactions_acc.1 = txs ∧
    (PayloadAttributeImpl.mk txs e).epoch_info.1 = e ∧
    (PayloadAttributeImpl.mk txs e).transactions_acc.2 = PayloadAttributeImpl.mk txs e ∧
    (PayloadAttributeImpl.mk txs e).epoch_info.2 = PayloadAttributeImpl.mk txs e ∧
    ((PayloadAttributeImpl.mk txs e).transactions_acc.2).transactions_acc.1 =
      (PayloadAttributeImpl.mk txs e).transactions_acc.1 ∧
    ((PayloadAttributeImpl.mk txs e).epoch_info.2).epoch_info.1 =
      (PayloadAttributeImpl.mk txs e).epoch_info.1 :=
  ⟨rfl, rfl, rfl, rfl, rfl, rfl⟩

/-- C10: `read_program` errors when both program buffer and path are set,
errors when neither is set, and when exactly the buffer is set it returns
`Ok` with that buffer unchanged, independent of the file-system read (so no
file read influences the result). -/
theorem claim_C10_read_program_cases
    (read_file : String → Except SvmError (List Nat))
    (self : SimpleBuilderProg) :
    (self.program_buffer.isSome = true → self.program_path.isSome = true →
      self.read_program read_file =
        Except.error (SvmError.builderError "Both program buffer and path are set")) ∧
    (self.program_buffer = none → self.program_path = none →
      self.read_program read_file =
        Except.error (SvmError.builderError "Program not found")) ∧
    (∀ buf, self.program_buffer = some buf → self.program_path = none →
      ∀ rf2 : String → Except SvmError (List Nat),
        self.read_program rf2 = Except.ok buf) := by
  refine ⟨?_, ?_, ?_⟩
  · intro h1 h2
    unfold SimpleBuilderProg.read_program
    rw [h1, h2]
    rfl
  · intro h1 h2
    unfold SimpleBuilderProg.read_program
    rw [h1, h2]
    rfl
  · intro buf h1 h2 rf2
    unfold SimpleBuilderProg.read_program
    rw [h1, h2]
    rfl

/-- C10 witness: the three cases at concrete builders, with a concrete
file-system read. -/
theorem claim_C10_read_program_cases_witness :
    (SimpleBuilderProg.mk (some "prog.so") (some [1])).read_program sampleReadFile =
      Except.error (SvmError.builderError "Both program buffer and path are set") ∧
    (SimpleBuilderProg.mk none none).read_program sampleReadFile =
      Except.error (SvmError.builderError "Program not found") ∧
    (SimpleBuilderProg.mk none (some [1, 2])).read_program sampleReadFile =
      Except.ok [1, 2] :=
  ⟨(claim_C10_read_program_cases sampleReadFile
      (SimpleBuilderProg.mk (some "prog.so") (some [1]))).1 rfl rfl,
   (claim_C10_read_program_cases sampleReadFile
      (SimpleBuilderProg.mk none none)).2.1 rfl rfl,
   (claim_C10_read_program_cases sampleReadFile
      (SimpleBuilderProg.mk none (some [1, 2]))).2.2 [1, 2] rfl rfl sampleReadFile⟩

end Igloo
